import Mathlib

/-!
Verification of the MS5611 barometric pressure sensor driver (`src/lib.rs`)
against its natural-language specification.

The Rust source is shallowly embedded: machine integers are modelled as
`Nat`/`Int` with explicit two's-complement wrapping (`wrap32`, `wrap64`)
at every operation the source performs on `i32`/`i64` (Rust release-mode
semantics), arithmetic right shift as floor division, and bus traffic as
an explicit event trace driven by a transport model.
-/

set_option maxRecDepth 100000

namespace Ms5611

/-! ## Machine-integer helpers -/

/-- Two's-complement wrap-around of an `i32` operation result
(Rust release-mode overflow semantics). -/
def wrap32 (x : Int) : Int := (x + 2^31) % 2^32 - 2^31

/-- Two's-complement wrap-around of an `i64` operation result. -/
def wrap64 (x : Int) : Int := (x + 2^63) % 2^64 - 2^63

/-- Arithmetic (sign-preserving) right shift by `k` bits, i.e. floor
division by `2^k`; this is the semantics of Rust `>>` on signed integers.
Note that `/` on `Int` is euclidean division, which coincides with floor
division for the positive divisor `2^k`. -/
def asr (x : Int) (k : Nat) : Int := x / (2^k : Int)

/-! ## `Osr` — oversampling ratio (source lines 12-40) -/

/-- Oversampling ratio, `enum Osr` of the source. -/
inductive Osr where
  | Opt256
  | Opt512
  | Opt1024
  | Opt2048
  | Opt4096
deriving DecidableEq

/-- `Osr::get_delay` (source lines 21-29): conversion wait in milliseconds. -/
def Osr.get_delay : Osr → Nat
  | .Opt256 => 1
  | .Opt512 => 2
  | .Opt1024 => 3
  | .Opt2048 => 5
  | .Opt4096 => 10

/-- `Osr::addr_modifier` (source lines 31-39): register address offset. -/
def Osr.addr_modifier : Osr → Nat
  | .Opt256 => 0
  | .Opt512 => 2
  | .Opt1024 => 4
  | .Opt2048 => 6
  | .Opt4096 => 8

/-! ## `Ms5611Reg` — register map (source lines 49-72) -/

/-- `enum Ms5611Reg` of the source. -/
inductive Ms5611Reg where
  | Reset
  | D1
  | D2
  | AdcRead
  | Prom
deriving DecidableEq

/-- `Ms5611Reg::addr` (source lines 62-71). -/
def Ms5611Reg.addr : Ms5611Reg → Nat
  | .Reset => 0x1e
  | .D1 => 0x40
  | .D2 => 0x50
  | .AdcRead => 0x00
  | .Prom => 0xa0

/-! ## `Prom` — factory calibration data (source lines 83-98)

The six fields are `u16` values; they are modelled as `Nat` with the
bound `< 65536` carried as a hypothesis where a theorem needs it. -/

/-- `struct Prom` of the source: the six factory calibration coefficients. -/
structure Prom where
  pressure_sensitivity : Nat
  pressure_offset : Nat
  temp_coef_pressure_sensitivity : Nat
  temp_coef_pressure_offset : Nat
  temp_ref : Nat
  temp_coef_temp : Nat
deriving DecidableEq

/-- All six `Prom` fields are 16-bit values (structural `u16` bound). -/
def Prom.Wf (p : Prom) : Prop :=
  p.pressure_sensitivity < 65536 ∧ p.pressure_offset < 65536 ∧
  p.temp_coef_pressure_sensitivity < 65536 ∧ p.temp_coef_pressure_offset < 65536 ∧
  p.temp_ref < 65536 ∧ p.temp_coef_temp < 65536

instance (p : Prom) : Decidable p.Wf := by unfold Prom.Wf; infer_instance

/-! ## PROM CRC (source lines 133-202)

`read_prom` reads eight big-endian 16-bit words from the PROM and feeds
their bytes, in order, into the CRC accumulator: both bytes of words 0-6,
then the high byte of word 7 followed by a literal zero byte.  The final
accumulator shifted right by 12 is compared against the low 4 bits of
word 7.  On mismatch the source calls the `panic` macro (it does not
return an error value); this outcome is modelled by `PromResult.crcPanic`. -/

/-- One shift round of `crc_accumulate_byte` (source lines 139-145): the
`u16` accumulator is shifted left (wrapping mod `2^16`) and XORed with
`0x3000` if its top bit was set. -/
def crc_round (c : Nat) : Nat :=
  if c &&& 0x8000 > 0 then ((c <<< 1) % 2^16) ^^^ 0x3000 else (c <<< 1) % 2^16

/-- `crc_accumulate_byte` (source lines 137-146): XOR the byte into the
accumulator, then run 8 shift rounds. -/
def crc_accumulate_byte (crc_check : Nat) (byte : Nat) : Nat :=
  crc_round^[8] (crc_check ^^^ byte)

/-- Absorb a list of bytes in order; the source absorbs its 16 bytes by
straight-line calls to `crc_accumulate_byte` / `crc_accumulate_buf2`. -/
def crc_run (crc_check : Nat) (bytes : List Nat) : Nat :=
  bytes.foldl crc_accumulate_byte crc_check

/-- High byte of a big-endian 16-bit word (the first buffer byte the
transport delivers for a PROM word). -/
def hiByte (w : Nat) : Nat := w >>> 8

/-- Low byte of a big-endian 16-bit word (the second buffer byte). -/
def loByte (w : Nat) : Nat := w &&& 0xff

/-- The exact byte sequence `read_prom` feeds into the CRC (source lines
153-186): both bytes of words 0-6, then the high byte of word 7, then a
literal zero in place of word 7's low (checksum) byte. -/
def prom_crc_bytes (w : Fin 8 → Nat) : List Nat :=
  [hiByte (w 0), loByte (w 0), hiByte (w 1), loByte (w 1),
   hiByte (w 2), loByte (w 2), hiByte (w 3), loByte (w 3),
   hiByte (w 4), loByte (w 4), hiByte (w 5), loByte (w 5),
   hiByte (w 6), loByte (w 6), hiByte (w 7), 0]

/-- The computed 4-bit PROM checksum: accumulator over all 16 bytes,
shifted right by 12 (source line 188). -/
def prom_crc (w : Fin 8 → Nat) : Nat := crc_run 0 (prom_crc_bytes w) >>> 12

/-- Outcome of `read_prom`: either the loaded calibration data, or the
`panic` the source raises on a checksum mismatch (source line 191), which
aborts rather than returning an error value.  The two `Nat` fields are
the stored and the computed checksum printed by the panic message. -/
inductive PromResult where
  | ok (p : Prom)
  | crcPanic (crc crc_check : Nat)
deriving DecidableEq

/-- `read_prom` (source lines 133-202) as a function of the eight 16-bit
words delivered by the transport: compute the CRC over the byte sequence,
compare with the low 4 bits of word 7 (source line 184), and on success
return words 1-6 as the six coefficients, in order (source lines 194-201). -/
def read_prom (w : Fin 8 → Nat) : PromResult :=
  let crc := w 7 &&& 0x000f
  let crc_check := prom_crc w
  if crc ≠ crc_check then .crcPanic crc crc_check
  else .ok ⟨w 1, w 2, w 3, w 4, w 5, w 6⟩

/-- Replace word `j` by itself with bit `i` flipped (single-bit
modification of one PROM word). -/
def flipWord (w : Fin 8 → Nat) (j : Fin 8) (i : Nat) : Fin 8 → Nat :=
  fun t => if t = j then w t ^^^ 2^i else w t

/-- A 16-byte sequence that is zero except for the value `v` at byte
position `k`: the GF(2) difference a single corrupted byte makes to the
CRC input. -/
def deltaBytes (k v : Nat) : List Nat :=
  [if k = 0 then v else 0, if k = 1 then v else 0, if k = 2 then v else 0,
   if k = 3 then v else 0, if k = 4 then v else 0, if k = 5 then v else 0,
   if k = 6 then v else 0, if k = 7 then v else 0, if k = 8 then v else 0,
   if k = 9 then v else 0, if k = 10 then v else 0, if k = 11 then v else 0,
   if k = 12 then v else 0, if k = 13 then v else 0, if k = 14 then v else 0,
   if k = 15 then v else 0]

/-- The CRC accumulator reached from 0 on the single-byte difference
sequence: by linearity of the CRC over GF(2), the exact change a
corrupted byte at position `k` induces on the final accumulator. -/
def crcDelta (k v : Nat) : Nat := crc_run 0 (deltaBytes k v)

/-! ## Compensation arithmetic (source lines 227-272)

The straight-line body of `read_sample` after the two ADC reads, split
into one definition per source variable.  Every `i64` operation of the
source is wrapped in `wrap64` and every `i32` operation in `wrap32`,
mirroring Rust two's-complement (release-mode) semantics exactly; `as`
casts from a narrower to a wider signed type are the identity, `as i32`
casts from `i64` are `wrap32`. -/

/-- `dt = d2 - ((temp_ref as i64) << 8)` (source line 230). -/
def dt (d2 : Int) (p : Prom) : Int :=
  wrap64 (d2 - wrap64 ((p.temp_ref : Int) * 2^8))

/-- `temperature: i32 = 2000 + (((dt * temp_coef_temp) >> 23) as i32)`
(source lines 233-234). -/
def temperature (d2 : Int) (p : Prom) : Int :=
  wrap32 (2000 + wrap32 (asr (wrap64 (dt d2 p * (p.temp_coef_temp : Int))) 23))

/-- `offset: i64 = (pressure_offset << 16) + ((dt * temp_coef_pressure_offset) >> 7)`
(source lines 236-237). -/
def offset (d2 : Int) (p : Prom) : Int :=
  wrap64 (wrap64 ((p.pressure_offset : Int) * 2^16)
    + asr (wrap64 (dt d2 p * (p.temp_coef_pressure_offset : Int))) 7)

/-- `sens: i64 = (pressure_sensitivity << 15) + ((dt * temp_coef_pressure_sensitivity) >> 8)`
(source lines 238-239). -/
def sens (d2 : Int) (p : Prom) : Int :=
  wrap64 (wrap64 ((p.pressure_sensitivity : Int) * 2^15)
    + asr (wrap64 (dt d2 p * (p.temp_coef_pressure_sensitivity : Int))) 8)

/-- `t2 = ((dt * dt) >> 31) as i32` inside `if temperature < 2000`
(source lines 250-251), else the initial `0`. -/
def t2 (d2 : Int) (p : Prom) : Int :=
  if temperature d2 p < 2000 then wrap32 (asr (wrap64 (dt d2 p * dt d2 p)) 31) else 0

/-- `off2 = ((5 * (temperature - 2000).pow(2)) >> 1) as i64` inside
`if temperature < 2000` (source line 252), else the initial `0`.  Note:
the subtraction, the squaring and the multiplication by 5 are all `i32`
operations in the source. -/
def off2_low (d2 : Int) (p : Prom) : Int :=
  if temperature d2 p < 2000 then
    asr (wrap32 (5 * wrap32 (wrap32 (temperature d2 p - 2000)
      * wrap32 (temperature d2 p - 2000)))) 1
  else 0

/-- `sens2 = off2 >> 1` inside `if temperature < 2000` (source line 253),
else the initial `0`. -/
def sens2_low (d2 : Int) (p : Prom) : Int :=
  if temperature d2 p < 2000 then asr (off2_low d2 p) 1 else 0

/-- `off2 += 7 * (temperature as i64 + 1500).pow(2)` inside
`if temperature < -1500` (source lines 257-258); all `i64` operations. -/
def off2 (d2 : Int) (p : Prom) : Int :=
  if temperature d2 p < -1500 then
    wrap64 (off2_low d2 p + wrap64 (7 * wrap64 (wrap64 (temperature d2 p + 1500)
      * wrap64 (temperature d2 p + 1500))))
  else off2_low d2 p

/-- `sens2 += ((11 * (temperature as i64 + 1500).pow(2)) >> 1) as i64`
inside `if temperature < -1500` (source line 259). -/
def sens2 (d2 : Int) (p : Prom) : Int :=
  if temperature d2 p < -1500 then
    wrap64 (sens2_low d2 p + asr (wrap64 (11 * wrap64 (wrap64 (temperature d2 p + 1500)
      * wrap64 (temperature d2 p + 1500)))) 1)
  else sens2_low d2 p

/-- `temperature -= t2` (source line 262), an `i32` subtraction. -/
def temperature_final (d2 : Int) (p : Prom) : Int :=
  wrap32 (temperature d2 p - t2 d2 p)

/-- `offset -= off2` (source line 263), an `i64` subtraction. -/
def offset_final (d2 : Int) (p : Prom) : Int :=
  wrap64 (offset d2 p - off2 d2 p)

/-- `sens -= sens2` (source line 264), an `i64` subtraction. -/
def sens_final (d2 : Int) (p : Prom) : Int :=
  wrap64 (sens d2 p - sens2 d2 p)

/-- `pressure: i32 = (((((d1 as i64) * sens) >> 21) - offset) >> 15) as i32`
(source line 267). -/
def pressure (d1 d2 : Int) (p : Prom) : Int :=
  wrap32 (asr (wrap64 (asr (wrap64 (d1 * sens_final d2 p)) 21 - offset_final d2 p)) 15)

/-- The compensation arithmetic of `read_sample` (source lines 227-272) as
a pure function: raw pressure and raw temperature ADC values plus
calibration data give the scaled integer pair
`(pressure in mbar*100, temperature in celsius*100)`.  The source's final
step divides each by `100.0` into an `f32` (source lines 269-272); that
floating-point presentation step is not modelled, the sample is
represented by its two scaled integer numerators. -/
def compensate (d1 d2 : Int) (p : Prom) : Int × Int :=
  (pressure d1 d2 p, temperature_final d2 p)

/-! ## Spec-modelled reference formulas (spec section 4.3)

Modelled from the spec: the normative compensation formula sequence of
section 4.3, written in exact integer arithmetic ("All intermediate
arithmetic uses signed 64-bit integers to avoid overflow"), with all
shifts arithmetic (sign-preserving) as the spec's edge-case policy
states.  These are the comparison point for the refinement claims about
`compensate`. -/

/-- Spec step 1: `dT = rawTemperatureAdc - (referenceTemperature << 8)`. -/
def dt_ref (d2 : Int) (p : Prom) : Int := d2 - (p.temp_ref : Int) * 2^8

/-- Spec step 2: `TEMP = 2000 + ((dT * temperatureCoefficientOfTemperature) >> 23)`. -/
def temperature_ref (d2 : Int) (p : Prom) : Int :=
  2000 + asr (dt_ref d2 p * (p.temp_coef_temp : Int)) 23

/-- Spec step 3: `OFF = (pressureOffset << 16) + ((dT * temperatureCoefficientOfPressureOffset) >> 7)`. -/
def offset_ref (d2 : Int) (p : Prom) : Int :=
  (p.pressure_offset : Int) * 2^16
    + asr (dt_ref d2 p * (p.temp_coef_pressure_offset : Int)) 7

/-- Spec step 4: `SENS = (pressureSensitivity << 15) + ((dT * temperatureCoefficientOfPressureSensitivity) >> 8)`. -/
def sens_ref (d2 : Int) (p : Prom) : Int :=
  (p.pressure_sensitivity : Int) * 2^15
    + asr (dt_ref d2 p * (p.temp_coef_pressure_sensitivity : Int)) 8

/-- Spec step 5, `T2`: `(dT * dT) >> 31` when `TEMP < 2000`, else `0`. -/
def t2_ref (d2 : Int) (p : Prom) : Int :=
  if temperature_ref d2 p < 2000 then asr (dt_ref d2 p * dt_ref d2 p) 31 else 0

/-- Spec step 5, `OFF2`: `(5 * (TEMP - 2000)^2) >> 1` when `TEMP < 2000`,
plus `7 * (TEMP + 1500)^2` when additionally `TEMP < -1500`, else `0`. -/
def off2_ref (d2 : Int) (p : Prom) : Int :=
  (if temperature_ref d2 p < 2000 then
    asr (5 * ((temperature_ref d2 p - 2000) * (temperature_ref d2 p - 2000))) 1
  else 0)
  + (if temperature_ref d2 p < -1500 then
    7 * ((temperature_ref d2 p + 1500) * (temperature_ref d2 p + 1500))
  else 0)

/-- Spec step 5, `SENS2`: `OFF2 >> 1` (of the first-order part) when
`TEMP < 2000`, plus `(11 * (TEMP + 1500)^2) >> 1` when additionally
`TEMP < -1500`, else `0`. -/
def sens2_ref (d2 : Int) (p : Prom) : Int :=
  (if temperature_ref d2 p < 2000 then
    asr (asr (5 * ((temperature_ref d2 p - 2000) * (temperature_ref d2 p - 2000))) 1) 1
  else 0)
  + (if temperature_ref d2 p < -1500 then
    asr (11 * ((temperature_ref d2 p + 1500) * (temperature_ref d2 p + 1500))) 1
  else 0)

/-- Spec step 7: `PRESSURE = (((rawPressureAdc * SENS) >> 21) - OFF) >> 15`
with the step-6 corrections `OFF -= OFF2`, `SENS -= SENS2` applied. -/
def pressure_ref (d1 d2 : Int) (p : Prom) : Int :=
  asr (asr (d1 * (sens_ref d2 p - sens2_ref d2 p)) 21
    - (offset_ref d2 p - off2_ref d2 p)) 15

/-- The spec's full compensation formula sequence (section 4.3 steps 1-7),
returning the scaled integer pair
`(PRESSURE in mbar*100, TEMP - T2 in celsius*100)`. -/
def compensate_ref (d1 d2 : Int) (p : Prom) : Int × Int :=
  (pressure_ref d1 d2 p, temperature_ref d2 p - t2_ref d2 p)

/-! ## Transport model, `reset` and `read_sample` sequencing

The i2c transport and the delay provider are external collaborators; the
driver's interaction with them is modelled as an explicit trace of
`BusEvent`s.  A transport model answers each transaction as a function of
the event history so far, so error injection at any step is expressible.
`reset` and `read_sample` return the trace of events they issued together
with their result. -/

/-- One bus or delay action issued by the driver. -/
inductive BusEvent where
  | write (address : Nat) (bytes : List Nat)
  | delayMs (ms : Nat)
  | writeRead (address : Nat) (bytes : List Nat) (len : Nat)
deriving DecidableEq

/-- A model of the i2c transport with error type `E`: the response to a
transaction may depend on the history of events issued so far.  A
`writeRead` response is the triple of bytes the transport stores into the
driver's 3-byte buffer slice. -/
structure I2cModel (E : Type) where
  write : List BusEvent → Nat → List Nat → Except E Unit
  writeRead : List BusEvent → Nat → List Nat → Except E (Nat × Nat × Nat)

/-- `BigEndian::read_i32` (source lines 220 and 227): four bytes as a
big-endian 32-bit two's-complement integer. -/
def read_i32_be (b0 b1 b2 b3 : Nat) : Int :=
  if b0 * 2^24 + b1 * 2^16 + b2 * 2^8 + b3 < 2^31
  then ((b0 * 2^24 + b1 * 2^16 + b2 * 2^8 + b3 : Nat) : Int)
  else ((b0 * 2^24 + b1 * 2^16 + b2 * 2^8 + b3 : Nat) : Int) - 2^32

/-- `reset` (source lines 123-131): write the single reset command byte
to the reset register address, then wait 50 ms.  A failing write
propagates the transport error before the delay. -/
def reset {E : Type} (i2c : I2cModel E) (address : Nat) :
    List BusEvent × Except E Unit :=
  match i2c.write [] address [Ms5611Reg.Reset.addr] with
  | .error e => ([.write address [Ms5611Reg.Reset.addr]], .error e)
  | .ok _ => ([.write address [Ms5611Reg.Reset.addr], .delayMs 50], .ok ())

/-- `read_sample` (source lines 207-273): start a pressure conversion at
`D1 + addr_modifier`, wait the oversampling delay, read 3 ADC bytes into
`buf[1..4]` (with `buf[0]` still its initial `0`), repeat with the
temperature conversion register `D2 + addr_modifier`, then run the
compensation arithmetic on the two parsed raw values.  Any transport
error aborts immediately and is returned unchanged. -/
def read_sample {E : Type} (i2c : I2cModel E) (address : Nat) (prom : Prom)
    (osr : Osr) : List BusEvent × Except E (Int × Int) :=
  let e1 := BusEvent.write address [Ms5611Reg.D1.addr + osr.addr_modifier]
  match i2c.write [] address [Ms5611Reg.D1.addr + osr.addr_modifier] with
  | .error err => ([e1], .error err)
  | .ok _ =>
    let e2 := BusEvent.delayMs osr.get_delay
    let e3 := BusEvent.writeRead address [Ms5611Reg.AdcRead.addr] 3
    match i2c.writeRead [e1, e2] address [Ms5611Reg.AdcRead.addr] with
    | .error err => ([e1, e2, e3], .error err)
    | .ok (p1, p2, p3) =>
      let d1 := read_i32_be 0 p1 p2 p3
      let e4 := BusEvent.write address [Ms5611Reg.D2.addr + osr.addr_modifier]
      match i2c.write [e1, e2, e3] address [Ms5611Reg.D2.addr + osr.addr_modifier] with
      | .error err => ([e1, e2, e3, e4], .error err)
      | .ok _ =>
        let e5 := BusEvent.delayMs osr.get_delay
        let e6 := BusEvent.writeRead address [Ms5611Reg.AdcRead.addr] 3
        match i2c.writeRead [e1, e2, e3, e4, e5] address [Ms5611Reg.AdcRead.addr] with
        | .error err => ([e1, e2, e3, e4, e5, e6], .error err)
        | .ok (q1, q2, q3) =>
          let d2 := read_i32_be 0 q1 q2 q3
          ([e1, e2, e3, e4, e5, e6], .ok (compensate d1 d2 prom))

/-! ## Theorems: oversampling table and PROM loading -/

/-- C7: the oversampling lookup is total (it is a total function on the
five-constructor `Osr` type, with no failure mode) and returns exactly
the fixed table pairs 256 to (1 ms, 0), 512 to (2 ms, 2), 1024 to
(3 ms, 4), 2048 to (5 ms, 6), 4096 to (10 ms, 8); along the order
256 < 512 < 1024 < 2048 < 4096 both the wait time and the register
offset are strictly increasing. -/
theorem osr_table_exact_and_strictly_monotone :
    Osr.Opt256.get_delay = 1 ∧ Osr.Opt256.addr_modifier = 0 ∧
    Osr.Opt512.get_delay = 2 ∧ Osr.Opt512.addr_modifier = 2 ∧
    Osr.Opt1024.get_delay = 3 ∧ Osr.Opt1024.addr_modifier = 4 ∧
    Osr.Opt2048.get_delay = 5 ∧ Osr.Opt2048.addr_modifier = 6 ∧
    Osr.Opt4096.get_delay = 10 ∧ Osr.Opt4096.addr_modifier = 8 ∧
    Osr.Opt256.get_delay < Osr.Opt512.get_delay ∧
    Osr.Opt512.get_delay < Osr.Opt1024.get_delay ∧
    Osr.Opt1024.get_delay < Osr.Opt2048.get_delay ∧
    Osr.Opt2048.get_delay < Osr.Opt4096.get_delay ∧
    Osr.Opt256.addr_modifier < Osr.Opt512.addr_modifier ∧
    Osr.Opt512.addr_modifier < Osr.Opt1024.addr_modifier ∧
    Osr.Opt1024.addr_modifier < Osr.Opt2048.addr_modifier ∧
    Osr.Opt2048.addr_modifier < Osr.Opt4096.addr_modifier := by
  decide

/-- C2: the code aborts instead of returning a recoverable error.  At the
concrete PROM word set with words 0-6 zero and word 7 equal to 1, the
stored checksum (1) differs from the computed checksum (0), and
`read_prom` takes the `panic` path (source line 191) rather than
returning an error value to the caller as the claim requires. -/
theorem read_prom_mismatch_panics :
    read_prom (fun t => if t = 7 then 1 else 0) = PromResult.crcPanic 1 0 := by
  decide

/-- C3: for every set of eight 16-bit words whose computed CRC (absorbed
in the exact byte order of `prom_crc_bytes`: big-endian bytes of words
0-6, then the high byte of word 7, then a literal zero byte) equals the
low 4 bits of word 7, `read_prom` accepts and returns words 1 through 6
unchanged, in order, as the six coefficients. -/
theorem read_prom_accepts_valid_checksum (w : Fin 8 → Nat)
    (_hw : ∀ t, w t < 65536) (hcrc : prom_crc w = w 7 &&& 0x000f) :
    read_prom w = PromResult.ok ⟨w 1, w 2, w 3, w 4, w 5, w 6⟩ := by
  unfold read_prom
  simp [hcrc]

/-- Witness for C3 at the concrete all-zero word set, whose computed and
stored checksums are both zero. -/
theorem read_prom_accepts_valid_checksum_witness :
    read_prom (fun _ => 0) = PromResult.ok ⟨0, 0, 0, 0, 0, 0⟩ :=
  read_prom_accepts_valid_checksum (fun _ => 0) (by decide) (by decide)

/-- C5 counterexample: the all-zero word set is accepted, and flipping
the single bit 4 of word 7 (which lies neither in the stored checksum
nibble nor among the bytes fed to the CRC) yields a word set the loader
still accepts, against the claim that every single-bit modification of
words 0-7 outside a checksum recomputation is rejected. -/
theorem read_prom_misses_flip_of_word7_bit4 :
    read_prom (fun _ => 0) = PromResult.ok ⟨0, 0, 0, 0, 0, 0⟩ ∧
    flipWord (fun _ => 0) 7 4 7 = 16 ∧
    read_prom (flipWord (fun _ => 0) 7 4) = PromResult.ok ⟨0, 0, 0, 0, 0, 0⟩ := by
  decide

/-! ## Theorems: compensation counterexamples (32-bit overflow) -/

/-- C1 counterexample: at raw ADC values `d1 = d2 = 0` with calibration
coefficients `temp_ref = temp_coef_temp = 65535` and the others zero, the
code's compensation result differs from the spec's normative formula
sequence, because the second-order `OFF2` term squares
`temperature - 2000 = -131069` in 32-bit arithmetic where the true square
`17179082761` exceeds the `i32` range. -/
theorem compensate_deviates_from_formula_at_extreme_input :
    compensate 0 0 ⟨0, 0, 0, 0, 65535, 65535⟩
      ≠ compensate_ref 0 0 ⟨0, 0, 0, 0, 65535, 65535⟩ := by
  decide

/-- C4: the claim that every intermediate value is carried in signed
64-bit integers without overflow is contradicted by the code: at
`d1 = d2 = 0` with `temp_ref = 65535`, `temp_coef_temp = 65534` and the
other coefficients 1, the source's 32-bit squaring of
`temperature - 2000` wraps (the exact square `17178558489` exceeds
`i32::MAX`), so the code's `off2` differs from the exact 64-bit value of
the same formula. -/
theorem off2_square_overflows_i32 :
    wrap32 ((temperature 0 ⟨1, 1, 1, 1, 65535, 65534⟩ - 2000)
        * (temperature 0 ⟨1, 1, 1, 1, 65535, 65534⟩ - 2000))
      ≠ (temperature 0 ⟨1, 1, 1, 1, 65535, 65534⟩ - 2000)
        * (temperature 0 ⟨1, 1, 1, 1, 65535, 65534⟩ - 2000) ∧
    off2 0 ⟨1, 1, 1, 1, 65535, 65534⟩ ≠ off2_ref 0 ⟨1, 1, 1, 1, 65535, 65534⟩ := by
  decide

/-! ## Interval analysis: the code's wrapped arithmetic agrees with the
spec's exact formulas on the physically restricted domain

Helper lemmas, shared by the claim theorems below; the product bounds
let `omega` treat each product as a bounded atom. -/

lemma wrap32_eq_self {x : Int} (h1 : -(2^31) ≤ x) (h2 : x < 2^31) : wrap32 x = x := by
  unfold wrap32
  omega

lemma wrap64_eq_self {x : Int} (h1 : -(2^63) ≤ x) (h2 : x < 2^63) : wrap64 x = x := by
  unfold wrap64
  omega

lemma mul_upper_bound {a A c C : Int} (h1 : -A ≤ a) (h2 : a ≤ A) (h3 : 0 ≤ c)
    (h4 : c ≤ C) : a * c ≤ A * C := by
  have hA : 0 ≤ A := by linarith
  calc a * c ≤ A * c := mul_le_mul_of_nonneg_right h2 h3
    _ ≤ A * C := mul_le_mul_of_nonneg_left h4 hA

lemma mul_lower_bound {a A c C : Int} (h1 : -A ≤ a) (h2 : a ≤ A) (h3 : 0 ≤ c)
    (h4 : c ≤ C) : -(A * C) ≤ a * c := by
  have hA : 0 ≤ A := by linarith
  have hl1 : (-A) * c ≤ a * c := mul_le_mul_of_nonneg_right h1 h3
  have hl2 : (-A) * C ≤ (-A) * c := mul_le_mul_of_nonpos_left h4 (by linarith)
  calc -(A * C) = (-A) * C := by ring
    _ ≤ (-A) * c := hl2
    _ ≤ a * c := hl1

lemma sq_bounds {a A : Int} (h1 : -A ≤ a) (h2 : a ≤ A) :
    0 ≤ a * a ∧ a * a ≤ A * A := by
  refine ⟨mul_self_nonneg a, ?_⟩
  have ha1 : (0:Int) ≤ A - a := by linarith
  have ha2 : (0:Int) ≤ A + a := by linarith
  nlinarith [mul_nonneg ha1 ha2]

lemma dt_eq_ref {d2 : Int} {p : Prom} (hp : p.Wf) (hd2a : 0 ≤ d2)
    (hd2b : d2 < 2^24) :
    dt d2 p = dt_ref d2 p ∧ -16776960 ≤ dt_ref d2 p ∧ dt_ref d2 p ≤ 16777215 := by
  obtain ⟨w1, w2, w3, w4, w5, w6⟩ := hp
  unfold dt dt_ref wrap64
  omega

lemma temperature_eq_ref {d2 : Int} {p : Prom} (hp : p.Wf) (hd2a : 0 ≤ d2)
    (hd2b : d2 < 2^24) :
    temperature d2 p = temperature_ref d2 p ∧
    -129071 ≤ temperature_ref d2 p ∧ temperature_ref d2 p ≤ 133071 := by
  obtain ⟨hdt, hdtl, hdtu⟩ := dt_eq_ref hp hd2a hd2b
  have hdtl' : -(16777215:Int) ≤ dt_ref d2 p := by linarith
  have hc0 : (0:Int) ≤ (p.temp_coef_temp : Int) := by positivity
  have hcu : (p.temp_coef_temp : Int) ≤ 65535 := by
    obtain ⟨w1, w2, w3, w4, w5, w6⟩ := hp
    omega
  have hqu : dt_ref d2 p * (p.temp_coef_temp : Int) ≤ 16777215 * 65535 :=
    mul_upper_bound hdtl' hdtu hc0 hcu
  have hql : -(16777215 * 65535 : Int) ≤ dt_ref d2 p * (p.temp_coef_temp : Int) :=
    mul_lower_bound hdtl' hdtu hc0 hcu
  unfold temperature temperature_ref
  rw [hdt]
  unfold wrap32 wrap64 asr
  omega

lemma offset_eq_ref {d2 : Int} {p : Prom} (hp : p.Wf) (hd2a : 0 ≤ d2)
    (hd2b : d2 < 2^24) :
    offset d2 p = offset_ref d2 p ∧
    -17179869184 ≤ offset_ref d2 p ∧ offset_ref d2 p ≤ 17179869184 := by
  obtain ⟨hdt, hdtl, hdtu⟩ := dt_eq_ref hp hd2a hd2b
  have hdtl' : -(16777215:Int) ≤ dt_ref d2 p := by linarith
  have hc0 : (0:Int) ≤ (p.temp_coef_pressure_offset : Int) := by positivity
  have hcu : (p.temp_coef_pressure_offset : Int) ≤ 65535 := by
    obtain ⟨w1, w2, w3, w4, w5, w6⟩ := hp
    omega
  have hb0 : (0:Int) ≤ (p.pressure_offset : Int) := by positivity
  have hbu : (p.pressure_offset : Int) ≤ 65535 := by
    obtain ⟨w1, w2, w3, w4, w5, w6⟩ := hp
    omega
  have hqu : dt_ref d2 p * (p.temp_coef_pressure_offset : Int) ≤ 16777215 * 65535 :=
    mul_upper_bound hdtl' hdtu hc0 hcu
  have hql : -(16777215 * 65535 : Int)
      ≤ dt_ref d2 p * (p.temp_coef_pressure_offset : Int) :=
    mul_lower_bound hdtl' hdtu hc0 hcu
  unfold offset offset_ref
  rw [hdt]
  unfold wrap64 asr
  omega

lemma sens_eq_ref {d2 : Int} {p : Prom} (hp : p.Wf) (hd2a : 0 ≤ d2)
    (hd2b : d2 < 2^24) :
    sens d2 p = sens_ref d2 p ∧
    -8589934592 ≤ sens_ref d2 p ∧ sens_ref d2 p ≤ 8589934592 := by
  obtain ⟨hdt, hdtl, hdtu⟩ := dt_eq_ref hp hd2a hd2b
  have hdtl' : -(16777215:Int) ≤ dt_ref d2 p := by linarith
  have hc0 : (0:Int) ≤ (p.temp_coef_pressure_sensitivity : Int) := by positivity
  have hcu : (p.temp_coef_pressure_sensitivity : Int) ≤ 65535 := by
    obtain ⟨w1, w2, w3, w4, w5, w6⟩ := hp
    omega
  have hb0 : (0:Int) ≤ (p.pressure_sensitivity : Int) := by positivity
  have hbu : (p.pressure_sensitivity : Int) ≤ 65535 := by
    obtain ⟨w1, w2, w3, w4, w5, w6⟩ := hp
    omega
  have hqu : dt_ref d2 p * (p.temp_coef_pressure_sensitivity : Int)
      ≤ 16777215 * 65535 :=
    mul_upper_bound hdtl' hdtu hc0 hcu
  have hql : -(16777215 * 65535 : Int)
      ≤ dt_ref d2 p * (p.temp_coef_pressure_sensitivity : Int) :=
    mul_lower_bound hdtl' hdtu hc0 hcu
  unfold sens sens_ref
  rw [hdt]
  unfold wrap64 asr
  omega

lemma t2_eq_ref {d2 : Int} {p : Prom} (hp : p.Wf) (hd2a : 0 ≤ d2)
    (hd2b : d2 < 2^24) :
    t2 d2 p = t2_ref d2 p ∧ 0 ≤ t2_ref d2 p ∧ t2_ref d2 p ≤ 131072 := by
  obtain ⟨hdt, hdtl, hdtu⟩ := dt_eq_ref hp hd2a hd2b
  obtain ⟨hT, hTl, hTu⟩ := temperature_eq_ref hp hd2a hd2b
  have hdtl' : -(16777215:Int) ≤ dt_ref d2 p := by linarith
  obtain ⟨hsq0, hsqu⟩ := sq_bounds hdtl' hdtu
  unfold t2 t2_ref
  rw [hdt, hT]
  unfold wrap32 wrap64 asr
  split_ifs with h
  · omega
  · omega

lemma off2_eq_ref {d2 : Int} {p : Prom} (hp : p.Wf) (hd2a : 0 ≤ d2)
    (hd2b : d2 < 2^24) (htemp : -18724 ≤ temperature_ref d2 p) :
    off2 d2 p = off2_ref d2 p ∧ 0 ≤ off2_ref d2 p ∧ off2_ref d2 p ≤ 3250373672 := by
  obtain ⟨hT, hTl, hTu⟩ := temperature_eq_ref hp hd2a hd2b
  have hw1 : wrap32 (temperature_ref d2 p - 2000) = temperature_ref d2 p - 2000 :=
    wrap32_eq_self (by omega) (by omega)
  unfold off2 off2_low off2_ref
  rw [hT, hw1]
  by_cases h2 : temperature_ref d2 p < 2000
  · obtain ⟨hs10, hs1u⟩ :=
      sq_bounds (a := temperature_ref d2 p - 2000) (A := 20724) (by omega) (by omega)
    have hw2 : wrap32 ((temperature_ref d2 p - 2000) * (temperature_ref d2 p - 2000))
        = (temperature_ref d2 p - 2000) * (temperature_ref d2 p - 2000) :=
      wrap32_eq_self (by omega) (by omega)
    rw [hw2]
    have hw3 : wrap32 (5 * ((temperature_ref d2 p - 2000) * (temperature_ref d2 p - 2000)))
        = 5 * ((temperature_ref d2 p - 2000) * (temperature_ref d2 p - 2000)) :=
      wrap32_eq_self (by omega) (by omega)
    rw [hw3]
    by_cases h1 : temperature_ref d2 p < -1500
    · have hw4 : wrap64 (temperature_ref d2 p + 1500) = temperature_ref d2 p + 1500 :=
        wrap64_eq_self (by omega) (by omega)
      rw [hw4]
      obtain ⟨hs20, hs2u⟩ :=
        sq_bounds (a := temperature_ref d2 p + 1500) (A := 17224) (by omega) (by omega)
      have hw5 : wrap64 ((temperature_ref d2 p + 1500) * (temperature_ref d2 p + 1500))
          = (temperature_ref d2 p + 1500) * (temperature_ref d2 p + 1500) :=
        wrap64_eq_self (by omega) (by omega)
      rw [hw5]
      have hw6 : wrap64 (7 * ((temperature_ref d2 p + 1500) * (temperature_ref d2 p + 1500)))
          = 7 * ((temperature_ref d2 p + 1500) * (temperature_ref d2 p + 1500)) :=
        wrap64_eq_self (by omega) (by omega)
      rw [hw6]
      simp only [if_pos h1, if_pos h2]
      unfold asr wrap64
      omega
    · simp only [if_pos h2, if_neg h1]
      unfold asr
      omega
  · have h1 : ¬ temperature_ref d2 p < -1500 := by omega
    simp only [if_neg h1, if_neg h2]
    omega

lemma sens2_eq_ref {d2 : Int} {p : Prom} (hp : p.Wf) (hd2a : 0 ≤ d2)
    (hd2b : d2 < 2^24) (htemp : -18724 ≤ temperature_ref d2 p) :
    sens2 d2 p = sens2_ref d2 p ∧
    0 ≤ sens2_ref d2 p ∧ sens2_ref d2 p ≤ 2168519188 := by
  obtain ⟨hT, hTl, hTu⟩ := temperature_eq_ref hp hd2a hd2b
  have hw1 : wrap32 (temperature_ref d2 p - 2000) = temperature_ref d2 p - 2000 :=
    wrap32_eq_self (by omega) (by omega)
  unfold sens2 sens2_low off2_low sens2_ref
  rw [hT, hw1]
  by_cases h2 : temperature_ref d2 p < 2000
  · obtain ⟨hs10, hs1u⟩ :=
      sq_bounds (a := temperature_ref d2 p - 2000) (A := 20724) (by omega) (by omega)
    have hw2 : wrap32 ((temperature_ref d2 p - 2000) * (temperature_ref d2 p - 2000))
        = (temperature_ref d2 p - 2000) * (temperature_ref d2 p - 2000) :=
      wrap32_eq_self (by omega) (by omega)
    rw [hw2]
    have hw3 : wrap32 (5 * ((temperature_ref d2 p - 2000) * (temperature_ref d2 p - 2000)))
        = 5 * ((temperature_ref d2 p - 2000) * (temperature_ref d2 p - 2000)) :=
      wrap32_eq_self (by omega) (by omega)
    rw [hw3]
    by_cases h1 : temperature_ref d2 p < -1500
    · have hw4 : wrap64 (temperature_ref d2 p + 1500) = temperature_ref d2 p + 1500 :=
        wrap64_eq_self (by omega) (by omega)
      rw [hw4]
      obtain ⟨hs20, hs2u⟩ :=
        sq_bounds (a := temperature_ref d2 p + 1500) (A := 17224) (by omega) (by omega)
      have hw5 : wrap64 ((temperature_ref d2 p + 1500) * (temperature_ref d2 p + 1500))
          = (temperature_ref d2 p + 1500) * (temperature_ref d2 p + 1500) :=
        wrap64_eq_self (by omega) (by omega)
      rw [hw5]
      have hw6 : wrap64 (11 * ((temperature_ref d2 p + 1500) * (temperature_ref d2 p + 1500)))
          = 11 * ((temperature_ref d2 p + 1500) * (temperature_ref d2 p + 1500)) :=
        wrap64_eq_self (by omega) (by omega)
      rw [hw6]
      simp only [if_pos h1, if_pos h2]
      unfold asr wrap64
      generalize hu : (temperature_ref d2 p - 2000) * (temperature_ref d2 p - 2000) = u
        at hs10 hs1u ⊢
      generalize hv : (temperature_ref d2 p + 1500) * (temperature_ref d2 p + 1500) = v
        at hs20 hs2u ⊢
      simp only [pow_one]
      have ha1 : 0 ≤ 5 * u / 2 / 2 := by omega
      have ha2 : 5 * u / 2 / 2 ≤ 536855220 := by omega
      have hb1 : 0 ≤ 11 * v / 2 := by omega
      have hb2 : 11 * v / 2 ≤ 1631663968 := by omega
      generalize hu2 : 5 * u / 2 / 2 = a at ha1 ha2 ⊢
      generalize hv2 : 11 * v / 2 = b at hb1 hb2 ⊢
      omega
    · simp only [if_pos h2, if_neg h1]
      unfold asr
      omega
  · have h1 : ¬ temperature_ref d2 p < -1500 := by omega
    simp only [if_neg h1, if_neg h2]
    omega

lemma temperature_final_eq_ref {d2 : Int} {p : Prom} (hp : p.Wf) (hd2a : 0 ≤ d2)
    (hd2b : d2 < 2^24) :
    temperature_final d2 p = temperature_ref d2 p - t2_ref d2 p := by
  obtain ⟨hT, hTl, hTu⟩ := temperature_eq_ref hp hd2a hd2b
  obtain ⟨ht2, ht2l, ht2u⟩ := t2_eq_ref hp hd2a hd2b
  unfold temperature_final
  rw [hT, ht2]
  exact wrap32_eq_self (by omega) (by omega)

lemma offset_final_eq_ref {d2 : Int} {p : Prom} (hp : p.Wf) (hd2a : 0 ≤ d2)
    (hd2b : d2 < 2^24) (htemp : -18724 ≤ temperature_ref d2 p) :
    offset_final d2 p = offset_ref d2 p - off2_ref d2 p ∧
    -20430242856 ≤ offset_ref d2 p - off2_ref d2 p ∧
    offset_ref d2 p - off2_ref d2 p ≤ 17179869184 := by
  obtain ⟨ho, hol, hou⟩ := offset_eq_ref hp hd2a hd2b
  obtain ⟨ho2, ho2l, ho2u⟩ := off2_eq_ref hp hd2a hd2b htemp
  unfold offset_final
  rw [ho, ho2]
  exact ⟨wrap64_eq_self (by omega) (by omega), by omega, by omega⟩

lemma sens_final_eq_ref {d2 : Int} {p : Prom} (hp : p.Wf) (hd2a : 0 ≤ d2)
    (hd2b : d2 < 2^24) (htemp : -18724 ≤ temperature_ref d2 p) :
    sens_final d2 p = sens_ref d2 p - sens2_ref d2 p ∧
    -10758453780 ≤ sens_ref d2 p - sens2_ref d2 p ∧
    sens_ref d2 p - sens2_ref d2 p ≤ 8589934592 := by
  obtain ⟨hs, hsl, hsu⟩ := sens_eq_ref hp hd2a hd2b
  obtain ⟨hs2, hs2l, hs2u⟩ := sens2_eq_ref hp hd2a hd2b htemp
  unfold sens_final
  rw [hs, hs2]
  exact ⟨wrap64_eq_self (by omega) (by omega), by omega, by omega⟩

lemma pressure_eq_ref {d1 d2 : Int} {p : Prom} (hp : p.Wf)
    (hd1a : 0 ≤ d1) (hd1b : d1 < 2^24) (hd2a : 0 ≤ d2) (hd2b : d2 < 2^24)
    (htemp : -18724 ≤ temperature_ref d2 p) :
    pressure d1 d2 p = pressure_ref d1 d2 p := by
  obtain ⟨hsf, hsfl, hsfu⟩ := sens_final_eq_ref hp hd2a hd2b htemp
  obtain ⟨hof, hofl, hofu⟩ := offset_final_eq_ref hp hd2a hd2b htemp
  have hsfl' : -(10758453780:Int) ≤ sens_ref d2 p - sens2_ref d2 p := hsfl
  have hsfu' : sens_ref d2 p - sens2_ref d2 p ≤ 10758453780 := by omega
  have hqu : (sens_ref d2 p - sens2_ref d2 p) * d1 ≤ 10758453780 * 16777215 :=
    mul_upper_bound hsfl' hsfu' hd1a (by omega)
  have hql : -(10758453780 * 16777215 : Int) ≤ (sens_ref d2 p - sens2_ref d2 p) * d1 :=
    mul_lower_bound hsfl' hsfu' hd1a (by omega)
  have hqu' : d1 * (sens_ref d2 p - sens2_ref d2 p) ≤ 10758453780 * 16777215 := by
    rw [mul_comm d1 (sens_ref d2 p - sens2_ref d2 p)]
    exact hqu
  have hql' : -(10758453780 * 16777215 : Int) ≤ d1 * (sens_ref d2 p - sens2_ref d2 p) := by
    rw [mul_comm d1 (sens_ref d2 p - sens2_ref d2 p)]
    exact hql
  unfold pressure pressure_ref
  rw [hsf, hof]
  have hB : wrap64 (d1 * (sens_ref d2 p - sens2_ref d2 p))
      = d1 * (sens_ref d2 p - sens2_ref d2 p) :=
    wrap64_eq_self (by omega) (by omega)
  rw [hB]
  generalize hq : d1 * (sens_ref d2 p - sens2_ref d2 p) = q at hqu' hql' ⊢
  generalize ho : offset_ref d2 p - off2_ref d2 p = o at hofl hofu ⊢
  unfold asr
  have hg1 : -(200000000000 : Int) ≤ q / 2^21 := by omega
  have hg2 : q / 2^21 ≤ 200000000000 := by omega
  generalize hg : q / 2^21 = g at hg1 hg2 ⊢
  have hE : wrap64 (g - o) = g - o := wrap64_eq_self (by omega) (by omega)
  rw [hE]
  have hf1 : -(2^31 : Int) ≤ (g - o) / 2^15 := by omega
  have hf2 : ((g - o) / 2^15 : Int) < 2^31 := by omega
  exact wrap32_eq_self hf1 hf2

/-- C1 (amended): for every pair of 24-bit raw ADC values and every
16-bit calibration data such that the base temperature `TEMP` stays at or
above -187.24 celsius (`-18724 ≤ TEMP`, which holds for every physically
meaningful input and is exactly the domain on which the source's 32-bit
second-order `OFF2` term cannot overflow), the compensation arithmetic of
`read_sample` computes exactly the spec's normative formula sequence of
section 4.3, returning the scaled integer pair
`(PRESSURE, TEMP - T2)`. -/
theorem compensate_matches_spec_formulas (d1 d2 : Int) (p : Prom) (hp : p.Wf)
    (hd1a : 0 ≤ d1) (hd1b : d1 < 2^24) (hd2a : 0 ≤ d2) (hd2b : d2 < 2^24)
    (htemp : -18724 ≤ temperature_ref d2 p) :
    compensate d1 d2 p = compensate_ref d1 d2 p := by
  unfold compensate compensate_ref
  rw [pressure_eq_ref hp hd1a hd1b hd2a hd2b htemp,
    temperature_final_eq_ref hp hd2a hd2b]

/-- Witness for C1 at the datasheet's worked example: calibration
coefficients (40127, 36924, 23317, 23282, 33464, 28312) and raw ADC
values `d1 = 9085466`, `d2 = 8569150`; both the code and the spec formula
sequence give pressure 1000.09 mbar and temperature 20.07 celsius. -/
theorem compensate_matches_spec_formulas_witness :
    compensate 9085466 8569150 ⟨40127, 36924, 23317, 23282, 33464, 28312⟩ =
      compensate_ref 9085466 8569150 ⟨40127, 36924, 23317, 23282, 33464, 28312⟩ ∧
    compensate 9085466 8569150 ⟨40127, 36924, 23317, 23282, 33464, 28312⟩ =
      (100009, 2007) :=
  ⟨compensate_matches_spec_formulas 9085466 8569150
      ⟨40127, 36924, 23317, 23282, 33464, 28312⟩ (by decide) (by decide) (by decide)
      (by decide) (by decide) (by decide),
   by decide⟩

/-! ## Theorems: bus sequencing of `reset` and `read_sample` -/

/-- C8: every call to `reset` issues exactly one bus write of the single
byte `0x1E` to the device address and then waits exactly 50 ms; it fails,
returning the transport error unchanged with no delay performed, exactly
when that write fails. -/
theorem reset_writes_once_then_waits_50ms {E : Type} (i2c : I2cModel E)
    (address : Nat) :
    (i2c.write [] address [0x1e] = .ok () →
      reset i2c address = ([.write address [0x1e], .delayMs 50], .ok ())) ∧
    (∀ e : E, i2c.write [] address [0x1e] = .error e →
      reset i2c address = ([.write address [0x1e]], .error e)) := by
  constructor
  · intro h
    simp [reset, Ms5611Reg.addr, h]
  · intro e h
    simp [reset, Ms5611Reg.addr, h]

/-- Witness for C8 at a concrete always-succeeding transport. -/
theorem reset_writes_once_then_waits_50ms_witness :
    reset (⟨fun _ _ _ => .ok (), fun _ _ _ => .ok (0, 0, 0)⟩ : I2cModel Unit) 119 =
      ([.write 119 [0x1e], .delayMs 50], .ok ()) :=
  (reset_writes_once_then_waits_50ms
    (⟨fun _ _ _ => .ok (), fun _ _ _ => .ok (0, 0, 0)⟩ : I2cModel Unit) 119).1 rfl

/-- C6: on a successful call, `read_sample` performs exactly, in order:
a one-byte write of `0x40 + offset` to the device address, a wait of the
level's configured delay, a write-then-read at register `0x00` retrieving
3 bytes parsed big-endian into a 32-bit signed value whose high byte is
the buffer's untouched zero, the same three steps with command byte
`0x50 + offset`, and finally the compensation on the two raw values with
no further bus traffic. -/
theorem read_sample_success_bus_sequence {E : Type} (i2c : I2cModel E)
    (address : Nat) (prom : Prom) (osr : Osr) (p1 p2 p3 q1 q2 q3 : Nat)
    (h1 : i2c.write [] address [Ms5611Reg.D1.addr + osr.addr_modifier] = .ok ())
    (h2 : i2c.writeRead [.write address [Ms5611Reg.D1.addr + osr.addr_modifier],
            .delayMs osr.get_delay] address [Ms5611Reg.AdcRead.addr]
          = .ok (p1, p2, p3))
    (h3 : i2c.write [.write address [Ms5611Reg.D1.addr + osr.addr_modifier],
            .delayMs osr.get_delay, .writeRead address [Ms5611Reg.AdcRead.addr] 3]
            address [Ms5611Reg.D2.addr + osr.addr_modifier] = .ok ())
    (h4 : i2c.writeRead [.write address [Ms5611Reg.D1.addr + osr.addr_modifier],
            .delayMs osr.get_delay, .writeRead address [Ms5611Reg.AdcRead.addr] 3,
            .write address [Ms5611Reg.D2.addr + osr.addr_modifier],
            .delayMs osr.get_delay] address [Ms5611Reg.AdcRead.addr]
          = .ok (q1, q2, q3)) :
    read_sample i2c address prom osr =
      ([.write address [0x40 + osr.addr_modifier],
        .delayMs osr.get_delay,
        .writeRead address [0x00] 3,
        .write address [0x50 + osr.addr_modifier],
        .delayMs osr.get_delay,
        .writeRead address [0x00] 3],
       .ok (compensate (read_i32_be 0 p1 p2 p3) (read_i32_be 0 q1 q2 q3) prom)) := by
  simp only [Ms5611Reg.addr] at h1 h2 h3 h4 ⊢
  simp [read_sample, Ms5611Reg.addr, h1, h2, h3, h4]

/-- Witness for C6 at a concrete transport answering every read with the
bytes (1, 2, 3). -/
theorem read_sample_success_bus_sequence_witness :
    read_sample (⟨fun _ _ _ => .ok (), fun _ _ _ => .ok (1, 2, 3)⟩ : I2cModel Unit)
      119 ⟨0, 0, 0, 0, 0, 0⟩ .Opt256 =
      ([.write 119 [0x40 + Osr.Opt256.addr_modifier],
        .delayMs Osr.Opt256.get_delay,
        .writeRead 119 [0x00] 3,
        .write 119 [0x50 + Osr.Opt256.addr_modifier],
        .delayMs Osr.Opt256.get_delay,
        .writeRead 119 [0x00] 3],
       .ok (compensate (read_i32_be 0 1 2 3) (read_i32_be 0 1 2 3)
             ⟨0, 0, 0, 0, 0, 0⟩)) :=
  read_sample_success_bus_sequence
    (⟨fun _ _ _ => .ok (), fun _ _ _ => .ok (1, 2, 3)⟩ : I2cModel Unit)
    119 ⟨0, 0, 0, 0, 0, 0⟩ .Opt256 1 2 3 1 2 3 rfl rfl rfl rfl

/-- C9: whenever one of the four bus transactions of `read_sample` fails,
the call returns the transport's error value unchanged immediately: the
trace stops at the failing transaction (no later write, read or delay is
issued) and no sample is returned. -/
theorem read_sample_aborts_on_transport_error {E : Type} (i2c : I2cModel E)
    (address : Nat) (prom : Prom) (osr : Osr) (e : E) :
    (i2c.write [] address [Ms5611Reg.D1.addr + osr.addr_modifier] = .error e →
      read_sample i2c address prom osr =
        ([.write address [Ms5611Reg.D1.addr + osr.addr_modifier]], .error e)) ∧
    (i2c.write [] address [Ms5611Reg.D1.addr + osr.addr_modifier] = .ok () →
     i2c.writeRead [.write address [Ms5611Reg.D1.addr + osr.addr_modifier],
        .delayMs osr.get_delay] address [Ms5611Reg.AdcRead.addr] = .error e →
      read_sample i2c address prom osr =
        ([.write address [Ms5611Reg.D1.addr + osr.addr_modifier],
          .delayMs osr.get_delay,
          .writeRead address [Ms5611Reg.AdcRead.addr] 3], .error e)) ∧
    (∀ p1 p2 p3 : Nat,
      i2c.write [] address [Ms5611Reg.D1.addr + osr.addr_modifier] = .ok () →
      i2c.writeRead [.write address [Ms5611Reg.D1.addr + osr.addr_modifier],
        .delayMs osr.get_delay] address [Ms5611Reg.AdcRead.addr] = .ok (p1, p2, p3) →
      i2c.write [.write address [Ms5611Reg.D1.addr + osr.addr_modifier],
        .delayMs osr.get_delay, .writeRead address [Ms5611Reg.AdcRead.addr] 3]
        address [Ms5611Reg.D2.addr + osr.addr_modifier] = .error e →
      read_sample i2c address prom osr =
        ([.write address [Ms5611Reg.D1.addr + osr.addr_modifier],
          .delayMs osr.get_delay,
          .writeRead address [Ms5611Reg.AdcRead.addr] 3,
          .write address [Ms5611Reg.D2.addr + osr.addr_modifier]], .error e)) ∧
    (∀ p1 p2 p3 : Nat,
      i2c.write [] address [Ms5611Reg.D1.addr + osr.addr_modifier] = .ok () →
      i2c.writeRead [.write address [Ms5611Reg.D1.addr + osr.addr_modifier],
        .delayMs osr.get_delay] address [Ms5611Reg.AdcRead.addr] = .ok (p1, p2, p3) →
      i2c.write [.write address [Ms5611Reg.D1.addr + osr.addr_modifier],
        .delayMs osr.get_delay, .writeRead address [Ms5611Reg.AdcRead.addr] 3]
        address [Ms5611Reg.D2.addr + osr.addr_modifier] = .ok () →
      i2c.writeRead [.write address [Ms5611Reg.D1.addr + osr.addr_modifier],
        .delayMs osr.get_delay, .writeRead address [Ms5611Reg.AdcRead.addr] 3,
        .write address [Ms5611Reg.D2.addr + osr.addr_modifier],
        .delayMs osr.get_delay] address [Ms5611Reg.AdcRead.addr] = .error e →
      read_sample i2c address prom osr =
        ([.write address [Ms5611Reg.D1.addr + osr.addr_modifier],
          .delayMs osr.get_delay,
          .writeRead address [Ms5611Reg.AdcRead.addr] 3,
          .write address [Ms5611Reg.D2.addr + osr.addr_modifier],
          .delayMs osr.get_delay,
          .writeRead address [Ms5611Reg.AdcRead.addr] 3], .error e)) := by
  refine ⟨?_, ?_, ?_, ?_⟩
  · intro h1
    simp [read_sample, h1]
  · intro h1 h2
    simp [read_sample, h1, h2]
  · intro p1 p2 p3 h1 h2 h3
    simp [read_sample, h1, h2, h3]
  · intro p1 p2 p3 h1 h2 h3 h4
    simp [read_sample, h1, h2, h3, h4]

/-- Witness for C9 at a concrete transport that fails every transaction
with error value 5: the call aborts after the first conversion-start
write. -/
theorem read_sample_aborts_on_transport_error_witness :
    read_sample (⟨fun _ _ _ => .error 5, fun _ _ _ => .error 5⟩ : I2cModel Nat)
      119 ⟨0, 0, 0, 0, 0, 0⟩ .Opt256 =
      ([.write 119 [Ms5611Reg.D1.addr + Osr.Opt256.addr_modifier]], .error 5) :=
  (read_sample_aborts_on_transport_error
    (⟨fun _ _ _ => .error 5, fun _ _ _ => .error 5⟩ : I2cModel Nat)
    119 ⟨0, 0, 0, 0, 0, 0⟩ .Opt256 5).1 rfl

/-- C10: the raw pressure and raw temperature values parsed by
`read_sample` always lie in `[0, 2^24 - 1]` — in particular they are
never negative despite being read as a 32-bit signed integer — because
the 4-byte buffer's high byte stays its initial zero and the transport
only writes the lower three bytes. -/
theorem read_sample_raw_adc_values_24bit {E : Type} (i2c : I2cModel E)
    (address : Nat) (prom : Prom) (osr : Osr) (p1 p2 p3 q1 q2 q3 : Nat)
    (hp1 : p1 < 256) (hp2 : p2 < 256) (hp3 : p3 < 256)
    (hq1 : q1 < 256) (hq2 : q2 < 256) (hq3 : q3 < 256)
    (h1 : i2c.write [] address [Ms5611Reg.D1.addr + osr.addr_modifier] = .ok ())
    (h2 : i2c.writeRead [.write address [Ms5611Reg.D1.addr + osr.addr_modifier],
            .delayMs osr.get_delay] address [Ms5611Reg.AdcRead.addr]
          = .ok (p1, p2, p3))
    (h3 : i2c.write [.write address [Ms5611Reg.D1.addr + osr.addr_modifier],
            .delayMs osr.get_delay, .writeRead address [Ms5611Reg.AdcRead.addr] 3]
            address [Ms5611Reg.D2.addr + osr.addr_modifier] = .ok ())
    (h4 : i2c.writeRead [.write address [Ms5611Reg.D1.addr + osr.addr_modifier],
            .delayMs osr.get_delay, .writeRead address [Ms5611Reg.AdcRead.addr] 3,
            .write address [Ms5611Reg.D2.addr + osr.addr_modifier],
            .delayMs osr.get_delay] address [Ms5611Reg.AdcRead.addr]
          = .ok (q1, q2, q3)) :
    0 ≤ read_i32_be 0 p1 p2 p3 ∧ read_i32_be 0 p1 p2 p3 < 2^24 ∧
    0 ≤ read_i32_be 0 q1 q2 q3 ∧ read_i32_be 0 q1 q2 q3 < 2^24 ∧
    (read_sample i2c address prom osr).2 =
      .ok (compensate (read_i32_be 0 p1 p2 p3) (read_i32_be 0 q1 q2 q3) prom) := by
  refine ⟨?_, ?_, ?_, ?_, ?_⟩
  · unfold read_i32_be; split <;> omega
  · unfold read_i32_be; split <;> omega
  · unfold read_i32_be; split <;> omega
  · unfold read_i32_be; split <;> omega
  · simp [read_sample, h1, h2, h3, h4]

/-- Witness for C10 at a concrete transport answering every read with the
bytes (255, 255, 255), giving the maximal 24-bit raw value. -/
theorem read_sample_raw_adc_values_24bit_witness :
    0 ≤ read_i32_be 0 255 255 255 ∧ read_i32_be 0 255 255 255 < 2^24 ∧
    0 ≤ read_i32_be 0 255 255 255 ∧ read_i32_be 0 255 255 255 < 2^24 ∧
    (read_sample
        (⟨fun _ _ _ => .ok (), fun _ _ _ => .ok (255, 255, 255)⟩ : I2cModel Unit)
        119 ⟨0, 0, 0, 0, 0, 0⟩ .Opt256).2 =
      .ok (compensate (read_i32_be 0 255 255 255) (read_i32_be 0 255 255 255)
            ⟨0, 0, 0, 0, 0, 0⟩) :=
  read_sample_raw_adc_values_24bit
    (⟨fun _ _ _ => .ok (), fun _ _ _ => .ok (255, 255, 255)⟩ : I2cModel Unit)
    119 ⟨0, 0, 0, 0, 0, 0⟩ .Opt256 255 255 255 255 255 255
    (by decide) (by decide) (by decide) (by decide) (by decide) (by decide)
    rfl rfl rfl rfl

/-! ## CRC linearity over GF(2)

The accumulator update is linear over GF(2): the shift round, the byte
absorption and hence the whole run distribute over bitwise XOR.  A
single-bit corruption of the input bytes therefore changes the final
accumulator by a data-independent constant (`crcDelta`), and the flip is
detected exactly when that constant's top nibble is nonzero — which the
`crcDelta_table` lemma checks for every byte position and bit. -/

lemma shiftLeft_mod_xor (x y : Nat) :
    ((x ^^^ y) <<< 1) % 2^16 = ((x <<< 1) % 2^16) ^^^ ((y <<< 1) % 2^16) := by
  apply Nat.eq_of_testBit_eq
  intro i
  simp only [Nat.testBit_mod_two_pow, Nat.testBit_shiftLeft, Nat.testBit_xor]
  cases h1 : decide (i < 16) <;> cases h2 : decide (i ≥ 1) <;> simp

lemma shiftRight_xor_distrib (x y n : Nat) :
    (x ^^^ y) >>> n = (x >>> n) ^^^ (y >>> n) := by
  apply Nat.eq_of_testBit_eq
  intro i
  simp [Nat.testBit_shiftRight, Nat.testBit_xor]

lemma top_bit_test (x : Nat) : (x &&& 0x8000 > 0) ↔ x.testBit 15 = true := by
  have h : (0x8000 : Nat) = 2^15 := by norm_num
  rw [h, Nat.and_two_pow]
  cases hx : x.testBit 15 <;> simp [hx]

lemma xor_xor_cancel (A B C : Nat) : (A ^^^ C) ^^^ (B ^^^ C) = A ^^^ B := by
  rw [Nat.xor_comm B C, ← Nat.xor_assoc, Nat.xor_assoc A C C, Nat.xor_self, Nat.xor_zero]

lemma xor_rotate (A B C : Nat) : (A ^^^ B) ^^^ C = (A ^^^ C) ^^^ B := by
  rw [Nat.xor_assoc, Nat.xor_comm B C, ← Nat.xor_assoc]

lemma xor_exchange (a b x y : Nat) : (a ^^^ b) ^^^ (x ^^^ y) = (a ^^^ x) ^^^ (b ^^^ y) := by
  rw [Nat.xor_assoc, ← Nat.xor_assoc b x y, Nat.xor_comm b x, Nat.xor_assoc x b y,
    ← Nat.xor_assoc]

lemma xor_ne_self {x d : Nat} (hd : d ≠ 0) : x ^^^ d ≠ x := by
  intro hcon
  apply hd
  have h3 := congrArg (fun z => x ^^^ z) hcon.symm
  simp only [Nat.xor_self, ← Nat.xor_assoc] at h3
  rw [Nat.zero_xor] at h3
  exact h3.symm

lemma crc_round_xor (a b : Nat) : crc_round (a ^^^ b) = crc_round a ^^^ crc_round b := by
  have hc : ∀ x : Nat, crc_round x
      = (if x.testBit 15 = true then ((x <<< 1) % 2^16) ^^^ 0x3000 else (x <<< 1) % 2^16) := by
    intro x
    unfold crc_round
    by_cases hx : x.testBit 15 = true
    · rw [if_pos ((top_bit_test x).mpr hx), if_pos hx]
    · rw [if_neg (fun hcon => hx ((top_bit_test x).mp hcon)), if_neg hx]
  rw [hc, hc, hc, Nat.testBit_xor]
  by_cases ha : a.testBit 15 = true <;> by_cases hb : b.testBit 15 = true <;>
    simp only [ha, hb, Bool.xor_true, Bool.xor_false, Bool.true_xor, Bool.false_xor,
      Bool.not_true, Bool.not_false, if_true, if_false, reduceIte] <;>
    rw [shiftLeft_mod_xor] <;>
    simp only [Bool.false_eq_true, if_false, if_true]
  · rw [xor_xor_cancel]
  · rw [xor_rotate]
  · rw [Nat.xor_assoc]

lemma iterate_crc_round_xor (n : Nat) : ∀ a b : Nat,
    crc_round^[n] (a ^^^ b) = crc_round^[n] a ^^^ crc_round^[n] b := by
  induction n with
  | zero => intro a b; simp
  | succ k ih =>
    intro a b
    rw [Function.iterate_succ_apply, Function.iterate_succ_apply,
      Function.iterate_succ_apply, crc_round_xor]
    exact ih _ _

lemma crc_accumulate_byte_xor (a b x y : Nat) :
    crc_accumulate_byte (a ^^^ b) (x ^^^ y)
      = crc_accumulate_byte a x ^^^ crc_accumulate_byte b y := by
  unfold crc_accumulate_byte
  rw [xor_exchange, iterate_crc_round_xor]

lemma crc_run_xor : ∀ (bs cs : List Nat) (a b : Nat), bs.length = cs.length →
    crc_run (a ^^^ b) (List.zipWith HXor.hXor bs cs) = crc_run a bs ^^^ crc_run b cs := by
  intro bs
  induction bs with
  | nil =>
    intro cs a b h
    cases cs with
    | nil => simp [crc_run]
    | cons y ys => simp at h
  | cons x xs ih =>
    intro cs a b h
    cases cs with
    | nil => simp at h
    | cons y ys =>
      simp only [List.zipWith_cons_cons, crc_run, List.foldl_cons]
      rw [crc_accumulate_byte_xor]
      have hlen : xs.length = ys.length := by simpa using h
      exact ih ys _ _ hlen

lemma prom_crc_zip (w w' : Fin 8 → Nat) (k v : Nat)
    (hzip : prom_crc_bytes w' = List.zipWith HXor.hXor (prom_crc_bytes w) (deltaBytes k v)) :
    prom_crc w' = prom_crc w ^^^ (crcDelta k v >>> 12) := by
  have h := crc_run_xor (prom_crc_bytes w) (deltaBytes k v) 0 0 rfl
  simp only [Nat.xor_self] at h
  unfold prom_crc crcDelta
  rw [hzip, h, shiftRight_xor_distrib]

/-- The top nibble of the CRC difference induced by a single corrupted
bit is nonzero for every byte position 0-14 (the 15 input bytes: words
0-6 and the high byte of word 7) and every bit: checked by evaluation. -/
lemma crcDelta_table : ∀ k : Fin 15, ∀ b : Fin 8,
    crcDelta (k : Nat) (2^(b : Nat)) >>> 12 ≠ 0 := by decide

lemma read_prom_panic_of_mismatch (w : Fin 8 → Nat)
    (h : w 7 &&& 0x000f ≠ prom_crc w) : ∀ q : Prom, read_prom w ≠ PromResult.ok q := by
  intro q hq
  unfold read_prom at hq
  rw [if_pos h] at hq
  exact PromResult.noConfusion hq

lemma read_prom_valid_of_ok (w : Fin 8 → Nat) (p : Prom)
    (h : read_prom w = PromResult.ok p) : w 7 &&& 0x000f = prom_crc w := by
  by_cases hc : w 7 &&& 0x000f ≠ prom_crc w
  · unfold read_prom at h
    rw [if_pos hc] at h
    exact absurd h (fun hh => PromResult.noConfusion hh)
  · exact not_not.mp hc

lemma flip_detected (w w' : Fin 8 → Nat) (hvalid : w 7 &&& 0x000f = prom_crc w)
    (k v : Nat) (hstored : w' 7 &&& 0x000f = w 7 &&& 0x000f)
    (hzip : prom_crc_bytes w' = List.zipWith HXor.hXor (prom_crc_bytes w) (deltaBytes k v))
    (hdelta : crcDelta k v >>> 12 ≠ 0) :
    ∀ q : Prom, read_prom w' ≠ PromResult.ok q := by
  apply read_prom_panic_of_mismatch
  rw [hstored, hvalid, prom_crc_zip w w' k v hzip]
  exact Ne.symm (xor_ne_self hdelta)

lemma hiByte_xor (x y : Nat) : hiByte (x ^^^ y) = hiByte x ^^^ hiByte y := by
  unfold hiByte
  exact shiftRight_xor_distrib x y 8

lemma loByte_xor (x y : Nat) : loByte (x ^^^ y) = loByte x ^^^ loByte y := by
  unfold loByte
  exact Nat.and_xor_distrib_right

lemma hiByte_two_pow_low {i : Nat} (h : i < 8) : hiByte (2^i) = 0 := by
  unfold hiByte
  rw [Nat.shiftRight_eq_div_pow]
  exact Nat.div_eq_of_lt (Nat.pow_lt_pow_right (by norm_num) h)

lemma hiByte_two_pow_high {i : Nat} (h : 8 ≤ i) : hiByte (2^i) = 2^(i - 8) := by
  unfold hiByte
  rw [Nat.shiftRight_eq_div_pow]
  exact Nat.pow_div h (by norm_num)

lemma loByte_two_pow_low {i : Nat} (h : i < 8) : loByte (2^i) = 2^i := by
  unfold loByte
  have h8 : (0xff : Nat) = 2^8 - 1 := by norm_num
  rw [h8, Nat.and_pow_two_sub_one_eq_mod]
  exact Nat.mod_eq_of_lt (Nat.pow_lt_pow_right (by norm_num) h)

lemma loByte_two_pow_high {i : Nat} (h : 8 ≤ i) : loByte (2^i) = 0 := by
  unfold loByte
  have h8 : (0xff : Nat) = 2^8 - 1 := by norm_num
  rw [h8, Nat.and_pow_two_sub_one_eq_mod]
  exact Nat.mod_eq_zero_of_dvd (pow_dvd_pow 2 h)

lemma nibble_two_pow_low {i : Nat} (h : i < 4) : 2^i &&& 0x000f = 2^i := by
  have h4 : (0x000f : Nat) = 2^4 - 1 := by norm_num
  rw [h4, Nat.and_pow_two_sub_one_eq_mod]
  exact Nat.mod_eq_of_lt (Nat.pow_lt_pow_right (by norm_num) h)

lemma nibble_two_pow_high {i : Nat} (h : 4 ≤ i) : 2^i &&& 0x000f = 0 := by
  have h4 : (0x000f : Nat) = 2^4 - 1 := by norm_num
  rw [h4, Nat.and_pow_two_sub_one_eq_mod]
  exact Nat.mod_eq_zero_of_dvd (pow_dvd_pow 2 h)

lemma flip_nibble_detected (w : Fin 8 → Nat) (hvalid : w 7 &&& 0x000f = prom_crc w)
    (i : Nat) (hi4 : i < 4) :
    ∀ q : Prom, read_prom (flipWord w 7 i) ≠ PromResult.ok q := by
  apply read_prom_panic_of_mismatch
  have hbytes : prom_crc_bytes (flipWord w 7 i) = prom_crc_bytes w := by
    simp [prom_crc_bytes, flipWord, hiByte_xor,
      hiByte_two_pow_low (show i < 8 by omega), Nat.xor_zero]
  have hcrc : prom_crc (flipWord w 7 i) = prom_crc w := by
    unfold prom_crc
    rw [hbytes]
  rw [hcrc]
  have hst : flipWord w 7 i 7 = w 7 ^^^ 2^i := by simp [flipWord]
  rw [hst, Nat.and_xor_distrib_right, nibble_two_pow_low hi4, hvalid]
  exact xor_ne_self (by positivity)

/-- C5 (amended): for every accepted set of eight 16-bit PROM words,
flipping any single bit of words 0-6, of word 7's high byte, or of word
7's stored checksum nibble (bits 0-3) makes the loader report a checksum
mismatch (here: take the panic path) instead of returning coefficients.
The four bits 4-7 of word 7's low byte must be excluded: they enter
neither the CRC input (the low byte of word 7 is replaced by a literal
zero) nor the stored nibble, so flips there are invisible to the check
(see the counterexample). -/
theorem read_prom_rejects_single_bit_flip (w : Fin 8 → Nat)
    (_hw : ∀ t, w t < 65536) (p : Prom) (hacc : read_prom w = PromResult.ok p)
    (j : Fin 8) (i : Fin 16)
    (hpos : ¬((j : Nat) = 7 ∧ 4 ≤ (i : Nat) ∧ (i : Nat) < 8)) (q : Prom) :
    read_prom (flipWord w j (i : Nat)) ≠ PromResult.ok q := by
  have hvalid := read_prom_valid_of_ok w p hacc
  have h16 := i.isLt
  fin_cases j
  · rcases Nat.lt_or_ge (i : Nat) 8 with hi | hi8
    · exact flip_detected w _ hvalid 1 (2^(i : Nat))
        (by simp [flipWord])
        (by simp [prom_crc_bytes, flipWord, deltaBytes, hiByte_xor, loByte_xor,
          hiByte_two_pow_low hi, loByte_two_pow_low hi, Nat.xor_zero])
        (crcDelta_table ⟨1, by norm_num⟩ ⟨(i : Nat), hi⟩) q
    · exact flip_detected w _ hvalid 0 (2^((i : Nat) - 8))
        (by simp [flipWord])
        (by simp [prom_crc_bytes, flipWord, deltaBytes, hiByte_xor, loByte_xor,
          hiByte_two_pow_high hi8, loByte_two_pow_high hi8, Nat.xor_zero])
        (crcDelta_table ⟨0, by norm_num⟩ ⟨(i : Nat) - 8, by omega⟩) q
  · rcases Nat.lt_or_ge (i : Nat) 8 with hi | hi8
    · exact flip_detected w _ hvalid 3 (2^(i : Nat))
        (by simp [flipWord])
        (by simp [prom_crc_bytes, flipWord, deltaBytes, hiByte_xor, loByte_xor,
          hiByte_two_pow_low hi, loByte_two_pow_low hi, Nat.xor_zero])
        (crcDelta_table ⟨3, by norm_num⟩ ⟨(i : Nat), hi⟩) q
    · exact flip_detected w _ hvalid 2 (2^((i : Nat) - 8))
        (by simp [flipWord])
        (by simp [prom_crc_bytes, flipWord, deltaBytes, hiByte_xor, loByte_xor,
          hiByte_two_pow_high hi8, loByte_two_pow_high hi8, Nat.xor_zero])
        (crcDelta_table ⟨2, by norm_num⟩ ⟨(i : Nat) - 8, by omega⟩) q
  · rcases Nat.lt_or_ge (i : Nat) 8 with hi | hi8
    · exact flip_detected w _ hvalid 5 (2^(i : Nat))
        (by simp [flipWord])
        (by simp [prom_crc_bytes, flipWord, deltaBytes, hiByte_xor, loByte_xor,
          hiByte_two_pow_low hi, loByte_two_pow_low hi, Nat.xor_zero])
        (crcDelta_table ⟨5, by norm_num⟩ ⟨(i : Nat), hi⟩) q
    · exact flip_detected w _ hvalid 4 (2^((i : Nat) - 8))
        (by simp [flipWord])
        (by simp [prom_crc_bytes, flipWord, deltaBytes, hiByte_xor, loByte_xor,
          hiByte_two_pow_high hi8, loByte_two_pow_high hi8, Nat.xor_zero])
        (crcDelta_table ⟨4, by norm_num⟩ ⟨(i : Nat) - 8, by omega⟩) q
  · rcases Nat.lt_or_ge (i : Nat) 8 with hi | hi8
    · exact flip_detected w _ hvalid 7 (2^(i : Nat))
        (by simp [flipWord])
        (by simp [prom_crc_bytes, flipWord, deltaBytes, hiByte_xor, loByte_xor,
          hiByte_two_pow_low hi, loByte_two_pow_low hi, Nat.xor_zero])
        (crcDelta_table ⟨7, by norm_num⟩ ⟨(i : Nat), hi⟩) q
    · exact flip_detected w _ hvalid 6 (2^((i : Nat) - 8))
        (by simp [flipWord])
        (by simp [prom_crc_bytes, flipWord, deltaBytes, hiByte_xor, loByte_xor,
          hiByte_two_pow_high hi8, loByte_two_pow_high hi8, Nat.xor_zero])
        (crcDelta_table ⟨6, by norm_num⟩ ⟨(i : Nat) - 8, by omega⟩) q
  · rcases Nat.lt_or_ge (i : Nat) 8 with hi | hi8
    · exact flip_detected w _ hvalid 9 (2^(i : Nat))
        (by simp [flipWord])
        (by simp [prom_crc_bytes, flipWord, deltaBytes, hiByte_xor, loByte_xor,
          hiByte_two_pow_low hi, loByte_two_pow_low hi, Nat.xor_zero])
        (crcDelta_table ⟨9, by norm_num⟩ ⟨(i : Nat), hi⟩) q
    · exact flip_detected w _ hvalid 8 (2^((i : Nat) - 8))
        (by simp [flipWord])
        (by simp [prom_crc_bytes, flipWord, deltaBytes, hiByte_xor, loByte_xor,
          hiByte_two_pow_high hi8, loByte_two_pow_high hi8, Nat.xor_zero])
        (crcDelta_table ⟨8, by norm_num⟩ ⟨(i : Nat) - 8, by omega⟩) q
  · rcases Nat.lt_or_ge (i : Nat) 8 with hi | hi8
    · exact flip_detected w _ hvalid 11 (2^(i : Nat))
        (by simp [flipWord])
        (by simp [prom_crc_bytes, flipWord, deltaBytes, hiByte_xor, loByte_xor,
          hiByte_two_pow_low hi, loByte_two_pow_low hi, Nat.xor_zero])
        (crcDelta_table ⟨11, by norm_num⟩ ⟨(i : Nat), hi⟩) q
    · exact flip_detected w _ hvalid 10 (2^((i : Nat) - 8))
        (by simp [flipWord])
        (by simp [prom_crc_bytes, flipWord, deltaBytes, hiByte_xor, loByte_xor,
          hiByte_two_pow_high hi8, loByte_two_pow_high hi8, Nat.xor_zero])
        (crcDelta_table ⟨10, by norm_num⟩ ⟨(i : Nat) - 8, by omega⟩) q
  · rcases Nat.lt_or_ge (i : Nat) 8 with hi | hi8
    · exact flip_detected w _ hvalid 13 (2^(i : Nat))
        (by simp [flipWord])
        (by simp [prom_crc_bytes, flipWord, deltaBytes, hiByte_xor, loByte_xor,
          hiByte_two_pow_low hi, loByte_two_pow_low hi, Nat.xor_zero])
        (crcDelta_table ⟨13, by norm_num⟩ ⟨(i : Nat), hi⟩) q
    · exact flip_detected w _ hvalid 12 (2^((i : Nat) - 8))
        (by simp [flipWord])
        (by simp [prom_crc_bytes, flipWord, deltaBytes, hiByte_xor, loByte_xor,
          hiByte_two_pow_high hi8, loByte_two_pow_high hi8, Nat.xor_zero])
        (crcDelta_table ⟨12, by norm_num⟩ ⟨(i : Nat) - 8, by omega⟩) q
  · have hpos' : ¬(4 ≤ (i : Nat) ∧ (i : Nat) < 8) := fun hcon => hpos ⟨rfl, hcon⟩
    rcases Nat.lt_or_ge (i : Nat) 8 with hi | hi8
    · exact flip_nibble_detected w hvalid (i : Nat) (by omega) q
    · exact flip_detected w _ hvalid 14 (2^((i : Nat) - 8))
        (by simp [flipWord, Nat.and_xor_distrib_right,
          nibble_two_pow_high (show 4 ≤ (i : Nat) by omega), Nat.xor_zero])
        (by simp [prom_crc_bytes, flipWord, deltaBytes, hiByte_xor, loByte_xor,
          hiByte_two_pow_high hi8, loByte_two_pow_high hi8, Nat.xor_zero])
        (crcDelta_table ⟨14, by norm_num⟩ ⟨(i : Nat) - 8, by omega⟩) q

/-- Witness for C5 (amended) at the accepted all-zero word set with bit 0
of word 0 flipped: the modified words are rejected. -/
theorem read_prom_rejects_single_bit_flip_witness :
    read_prom (flipWord (fun _ => 0) 0 0) ≠ PromResult.ok ⟨0, 0, 0, 0, 0, 0⟩ :=
  read_prom_rejects_single_bit_flip (fun _ => 0) (by decide) ⟨0, 0, 0, 0, 0, 0⟩
    (by decide) 0 0 (by decide) ⟨0, 0, 0, 0, 0, 0⟩

end Ms5611
